import Mathlib

/-
Verification of the vinca_core event-sourced flashcard store.

The development shallowly embeds `src/vinca_core/card.py` and
`src/vinca_core/cardlist.py`.  SQLite state is passed explicitly:
the `edits` event log is a `List EditRecord`, the `media` table is a
`List (Nat × String)` of (id, content) rows, and the current-state
`cards` SQL view is a `List CardState` of projected rows.  Python
exceptions become an explicit `PyError` value; dates (julian-day
floats) are modelled as `Rat`.
-/

set_option linter.unusedVariables false

namespace Vinca

/-- A SQL value as it appears in the event log: NULL, an integer, a
string, or a (julian-day) float modelled as a rational. -/
inductive Value where
  | vnull : Value
  | vint : Int → Value
  | vstr : String → Value
  | vrat : Rat → Value
deriving DecidableEq

/-- One row of the append-only `edits` table: the card it concerns, the
optional explicit timestamp (absent means the database default), an
optional seconds-spent annotation, and the attribute assignments the
edit carries. -/
structure EditRecord where
  card_id : Int
  date : Option Rat
  seconds : Option Int
  fields : List (String × Value)
deriving DecidableEq

/-- Python exceptions raised by the embedded code, tagged by class. -/
inductive PyError where
  | keyError : String → PyError
  | valueError : String → PyError
  | typeError : String → PyError
  | assertionError : String → PyError
  | nameError : String → PyError
deriving DecidableEq

/-! ## Media store (card.py lines 72-90) -/

/-- Largest id present in the media table; `last_insert_rowid` on an
integer-primary-key table yields one past this. -/
def maxMediaId : List (Nat × String) → Nat
  | [] => 0
  | r :: rs => max r.1 (maxMediaId rs)

/-- Embedding of `Card._upload_media` (card.py 72-83): look the content
up by equality; if present return the existing id, otherwise insert a
fresh row and return its id.  Returns the id and the resulting table. -/
def Card._upload_media (media : List (Nat × String)) (content : String) :
    Nat × List (Nat × String) :=
  match media.find? (fun r => r.2 == content) with
  | some r => (r.1, media)
  | none =>
    let media_id := maxMediaId media + 1
    (media_id, media ++ [(media_id, content)])

/-- Embedding of `Card._get_media` (card.py 85-90). -/
def Card._get_media (media : List (Nat × String)) (media_id : Nat) : Option String :=
  media.lookup media_id

/-- Well-formed media table: the unique-id and content-addressing
invariants of the `media` relation (ids are distinct, contents are
distinct). -/
def wfMedia (media : List (Nat × String)) : Prop :=
  (media.map Prod.fst).Nodup ∧ (media.map Prod.snd).Nodup

/-! ## Card projection (card.py) -/

/-- `Card._misc_fields` (card.py line 27). -/
def _misc_fields : List String := ["card_type", "visibility"]

/-- `Card._date_fields` (card.py line 28). -/
def _date_fields : List String :=
  ["create_date", "due_date", "last_edit_date", "last_review_date"]

/-- `Card._text_fields` (card.py line 29). -/
def _text_fields : List String :=
  ["front_text", "back_text", "extra", "hint", "source", "spelltest"]

/-- `Card._media_id_fields` (card.py line 30). -/
def _media_id_fields : List String :=
  ["front_image_id", "back_image_id", "front_audio_id", "back_audio_id",
   "diagram_id", "diagram_data_id"]

/-- `Card._time_fields` (card.py line 31). -/
def _time_fields : List String := ["edit_seconds", "review_seconds", "total_seconds"]

/-- `Card._id_fields` (card.py line 33). -/
def _id_fields : List String := ["id"] ++ _media_id_fields

/-- `Card._int_fields` (card.py line 34). -/
def _int_fields : List String := _id_fields ++ _time_fields

/-- `Card._str_fields` (card.py line 35). -/
def _str_fields : List String := _misc_fields ++ _text_fields

/-- `Card._concrete_fields` (card.py line 36). -/
def _concrete_fields : List String := _date_fields ++ _int_fields ++ _str_fields

/-- `Card._virtual_media_fields` (card.py line 38). -/
def _virtual_media_fields : List String :=
  ["front_image", "back_image", "front_audio", "back_audio", "diagram", "diagram_data"]

/-- `Card._fields` (card.py line 39). -/
def _fields : List String := _concrete_fields ++ _virtual_media_fields

/-- `Card._editable_fields` (card.py lines 41-43). -/
def _editable_fields : List String :=
  ["front_image_id", "back_image_id", "front_audio_id", "back_audio_id",
   "diagram_id", "diagram_data_id",
   "front_text", "back_text", "source", "extra", "hint", "spelltest",
   "card_type", "visibility", "due_date"]

/-- A `Card` handle: the immutable id plus the session cache `_dict`
(card.py lines 45-47; the id entry of the Python dict is kept as the
dedicated `id` field here). -/
structure Card where
  id : Int
  _dict : List (String × Value)
deriving DecidableEq

/-- Modelled from the spec: the `cards` current-state SQL view, whose
schema is not under src/.  Per the spec's `queryLatest(streamKind,
cardId, attribute)` contract, a card's current attribute value is the
value carried by the most recent edit record referencing that attribute
and card id (insertion order is the authoritative tie-break: the
physically later-appended record wins), or a defined default `dflt`
when no such record exists. -/
def queryLatest (edits : List EditRecord) (dflt : String → Value)
    (cardId : Int) (attr : String) : Value :=
  match edits.reverse.find? (fun e => e.card_id == cardId && (e.fields.lookup attr).isSome) with
  | some e => (e.fields.lookup attr).getD (dflt attr)
  | none => dflt attr

/-- Embedding of `Card._get_virtual_media_field` (card.py 134-139): it
resolves the backing `<key>_id` reference and looks the content up in
the media table, but the Python function has no return statement, so
every call yields None regardless of the computed content. -/
def Card._get_virtual_media_field (media : List (Nat × String))
    (edits : List EditRecord) (dflt : String → Value) (c : Card) (key : String) : Value :=
  let key_id := key ++ "_id"
  let media_id := queryLatest edits dflt c.id key_id
  let value :=
    match media_id with
    | Value.vint i =>
      if i ≠ 0 then ((media.lookup i.toNat).map Value.vstr).getD Value.vnull
      else Value.vnull
    | _ => Value.vnull
  Value.vnull

/-- Embedding of `Card.__getitem__` (card.py 112-132): unknown fields
raise KeyError; cached fields are returned from `_dict`; otherwise the
value is loaded from the `cards` view (virtual media fields via
`_get_virtual_media_field`), cached, and returned.  The JulianDate cast
applied to date fields is a wrapper preserving the numeric value, so it
is the identity here.  Returns the value and the card with its updated
cache. -/
def Card.getItem (media : List (Nat × String)) (edits : List EditRecord)
    (dflt : String → Value) (c : Card) (key : String) :
    Except PyError (Value × Card) :=
  if key ∉ _fields then
    .error (.keyError ("Field " ++ key ++ " does not exist"))
  else if key = "id" then
    .ok (.vint c.id, c)
  else
    match c._dict.lookup key with
    | some v => .ok (v, c)
    | none =>
      let value :=
        if key ∈ _virtual_media_fields then
          Card._get_virtual_media_field media edits dflt c key
        else
          queryLatest edits dflt c.id key
      .ok (value, { c with _dict := (key, value) :: c._dict })

/-- The value component of `Card.__getitem__`. -/
def Card.getItemValue (media : List (Nat × String)) (edits : List EditRecord)
    (dflt : String → Value) (c : Card) (key : String) : Except PyError Value :=
  (Card.getItem media edits dflt c key).map Prod.fst

/-- Python truthiness of the optional explicit timestamp: `if date:` is
false both for None and for 0.0. -/
def pyTruthyDate : Option Rat → Option Rat
  | some t => if t = 0 then Option.none else some t
  | Option.none => Option.none

/-- Replace or append one key in a Python-dict-as-assoc-list. -/
def dictSet (d : List (String × Value)) (k : String) (v : Value) :
    List (String × Value) :=
  if d.any (fun kv => kv.1 == k) then
    d.map (fun kv => if kv.1 == k then (k, v) else kv)
  else d ++ [(k, v)]

/-- `dict.update`: apply every entry of `upd` to `base`. -/
def dictUpdate (base upd : List (String × Value)) : List (String × Value) :=
  upd.foldl (fun acc kv => dictSet acc kv.1 kv.2) base

/-- Keys of the update dict all belong to `_editable_fields`
(the guard of the assert in card.py line 96). -/
def editableKeys (d : List (String × Value)) : Bool :=
  d.all (fun kv => decide (kv.1 ∈ _editable_fields))

/-- Embedding of `Card._update` (card.py 93-108): reject any key outside
`_editable_fields` (AssertionError, before anything is written); an
empty dict returns without writing; otherwise a truthy `date` overrides
the default timestamp, a nonzero `seconds` is recorded, the card_id is
attached, the session cache absorbs the dict, and exactly one row is
inserted into `edits`.  Returns the new edit log, the updated card, and
the raised exception if any. -/
def Card._update (c : Card) (d : List (String × Value)) (date : Option Rat)
    (seconds : Int) (edits : List EditRecord) :
    List EditRecord × Card × Option PyError :=
  if ¬ editableKeys d then
    (edits, c, some (.assertionError "Bad Key"))
  else if d = [] then
    (edits, c, none)
  else
    let dateEntry : List (String × Value) :=
      match pyTruthyDate date with
      | some t => [("date", Value.vrat t)]
      | Option.none => []
    let secondsEntry : List (String × Value) :=
      if seconds ≠ 0 then [("seconds", Value.vint seconds)] else []
    let fullD := d ++ dateEntry ++ secondsEntry ++ [("card_id", Value.vint c.id)]
    let row : EditRecord :=
      { card_id := c.id
        date := pyTruthyDate date
        seconds := if seconds ≠ 0 then some seconds else Option.none
        fields := d }
    (edits ++ [row], { c with _dict := dictUpdate c._dict fullD }, none)

/-- An edit row carrying a single visibility assignment with an explicit
timestamp, as inserted by the `_change_visibility` operations. -/
def mkVisibilityEdit (cid : Int) (visibility : String) (date : Rat) : EditRecord :=
  { card_id := cid, date := some date, seconds := Option.none
    fields := [("visibility", Value.vstr visibility)] }

/-- Embedding of `Card._change_visibility` (card.py 184-188): after the
assert, `date = date or julianday.now()` evaluates `julianday.now()`
whenever `date` is falsy — but card.py never imports the module name
`julianday`, so that path raises NameError; with a truthy explicit date
one edit row is inserted unconditionally (the card's current visibility
is never consulted). -/
def Card._change_visibility (c : Card) (visibility : String) (date : Option Rat)
    (edits : List EditRecord) : List EditRecord × Option PyError :=
  if visibility ∉ ["deleted", "visible", "purged"] then
    (edits, some (.assertionError "bad visibility"))
  else
    match pyTruthyDate date with
    | some d => (edits ++ [mkVisibilityEdit c.id visibility d], none)
    | Option.none => (edits, some (.nameError "name julianday is not defined"))

/-- Embedding of `Card.is_due` (card.py 168-170): current due_date ≤
today.  `today()` lives in the julianday module, which is not under
src/; modelled from the spec as the current day, passed in as `todayv`. -/
def Card.is_due (due_date todayv : Rat) : Bool :=
  decide (due_date ≤ todayv)

/-! ## Deck query engine (cardlist.py) -/

/-- A value as the dynamically typed filter parameters carry it: Python
None, a bool, an int, a str, or a list of strings. -/
inductive PyVal where
  | none : PyVal
  | pybool : Bool → PyVal
  | pyint : Int → PyVal
  | pystr : String → PyVal
  | pylistS : List String → PyVal
deriving DecidableEq, BEq

/-- One row of the `cards` current-state view (joined with the card's
current tags for the tag subqueries), as the Deck Query Engine's SQL
reads it. -/
structure CardState where
  id : Int
  front_text : String
  back_text : String
  create_date : Rat
  due_date : Rat
  last_edit_date : Rat
  last_review_date : Rat
  edit_seconds : Int
  review_seconds : Int
  visibility : String
  card_type : String
  front_image_id : Option Int
  back_image_id : Option Int
  front_audio_id : Option Int
  back_audio_id : Option Int
  tags : List String
deriving DecidableEq

/-- The SQL WHERE conditions `Cardlist.filter` generates, one
constructor per condition template in cardlist.py, plus the default
condition and SQL NOT. -/
inductive Cond where
  | rawBase : Cond
  | search : String → Cond
  | tagEq : String → Cond
  | tagsYes : List String → Cond
  | tagsNo : List String → Cond
  | createdAfter : Int → Cond
  | createdBefore : Int → Cond
  | dueAfter : Int → Cond
  | dueBefore : Int → Cond
  | dueNow : Rat → Cond
  | deletedVis : Cond
  | cardTypeEq : String → Cond
  | isNew : Cond
  | hasImages : Cond
  | hasAudio : Cond
  | notC : Cond → Cond
deriving DecidableEq

/-- Char-list starts-with test (helper for SQL LIKE). -/
def strStarts : List Char → List Char → Bool
  | [], _ => true
  | _ :: _, [] => false
  | a :: as, b :: bs => a == b && strStarts as bs

/-- Char-list contains test (helper for SQL LIKE). -/
def strHas (pat : List Char) : List Char → Bool
  | [] => strStarts pat []
  | c :: cs => strStarts pat (c :: cs) || strHas pat cs

/-- SQL `text LIKE '%pat%'`: substring match, case-insensitive as
SQLite's default LIKE is for ASCII. -/
def likeMatch (text pat : String) : Bool :=
  strHas pat.toLower.toList text.toLower.toList

/-- SQL semantics of each generated condition against one row of the
`cards` view.  The tag conditions are the truthiness of the
`SELECT count(1) FROM tags ...` subqueries; the date comparisons are the
generated `<`/`>` comparisons against interpolated day numbers. -/
def evalCond (st : CardState) : Cond → Bool
  | Cond.rawBase => !(st.visibility == "purged")
  | Cond.search s => likeMatch st.front_text s || likeMatch st.back_text s
  | Cond.tagEq t => st.tags.contains t
  | Cond.tagsYes ts => st.tags.any (fun t => ts.contains t)
  | Cond.tagsNo ts => st.tags.any (fun t => !(ts.contains t))
  | Cond.createdAfter n => decide ((n : Rat) < st.create_date)
  | Cond.createdBefore n => decide (st.create_date < (n : Rat))
  | Cond.dueAfter n => decide ((n : Rat) < st.due_date)
  | Cond.dueBefore n => decide (st.due_date < (n : Rat))
  | Cond.dueNow now => decide (st.due_date < now)
  | Cond.deletedVis => st.visibility == "deleted"
  | Cond.cardTypeEq s => st.card_type == s
  | Cond.isNew => decide (st.due_date = st.create_date)
  | Cond.hasImages => st.front_image_id.isSome || st.back_image_id.isSome
  | Cond.hasAudio => st.front_audio_id.isSome || st.back_audio_id.isSome
  | Cond.notC c => !(evalCond st c)

/-- A row satisfies the accumulated condition list (the `' AND '.join`
of `Cardlist._WHERE`). -/
def matchesAll (conds : List Cond) (st : CardState) : Bool :=
  conds.all (evalCond st)

/-- The ordering expressions appearing in `crit_dict` and in the default
ORDER BY clause. -/
inductive OrderKey where
  | recentTouched : OrderKey
  | dueDate : OrderKey
  | createDate : OrderKey
  | timeSpent : OrderKey
  | random : OrderKey
deriving DecidableEq

/-- An ORDER BY clause: the key expression and its direction. -/
structure OrderBy where
  key : OrderKey
  desc : Bool
deriving DecidableEq

/-- The numeric sort key of a row.  `ORDER BY RANDOM()` is
nondeterministic in SQL; it is modelled as a constant key (no claim
depends on the random order). -/
def orderVal (k : OrderKey) (st : CardState) : Rat :=
  match k with
  | OrderKey.recentTouched => max st.last_edit_date st.last_review_date
  | OrderKey.dueDate => st.due_date
  | OrderKey.createDate => st.create_date
  | OrderKey.timeSpent => ((st.edit_seconds + st.review_seconds : Int) : Rat)
  | OrderKey.random => 0

/-- Row comparison induced by an ORDER BY clause. -/
def rowLE (ob : OrderBy) (x y : CardState) : Bool :=
  if ob.desc then decide (orderVal ob.key y ≤ orderVal ob.key x)
  else decide (orderVal ob.key x ≤ orderVal ob.key y)

/-- Insert into a sorted list (stable: goes before later equal keys). -/
def insertSorted (le : CardState → CardState → Bool) (x : CardState) :
    List CardState → List CardState
  | [] => [x]
  | y :: ys => if le x y then x :: y :: ys else y :: insertSorted le x ys

/-- Deterministic model of the SQL ORDER BY execution. -/
def sortRows (le : CardState → CardState → Bool) : List CardState → List CardState
  | [] => []
  | x :: xs => insertSorted le x (sortRows le xs)

/-- A `Cardlist` view: the accumulated condition list, the ORDER BY
clause, the deck (table or view) it queries, and the `filters` record of
the parameters last passed to `filter` (cardlist.py 16-26; the Python
dict holds the latest value of every parameter, so it is modelled as the
latest `FilterArgs`). -/
structure FilterArgs where
  search : PyVal := PyVal.none
  require_parameters : Bool := true
  tag : PyVal := PyVal.none
  tags_yes : PyVal := PyVal.none
  tags_no : PyVal := PyVal.none
  created_after : PyVal := PyVal.none
  created_before : PyVal := PyVal.none
  due_after : PyVal := PyVal.none
  due_before : PyVal := PyVal.none
  deleted : PyVal := PyVal.none
  due : PyVal := PyVal.none
  new : PyVal := PyVal.none
  card_type : PyVal := PyVal.none
  images : PyVal := PyVal.none
  audio : PyVal := PyVal.none
  invert : Bool := false
deriving DecidableEq

structure Cardlist where
  _conditions : List Cond
  _ORDER_BY : OrderBy
  deck : String
  filters : Option FilterArgs
deriving DecidableEq

/-- A fresh `Cardlist(cursor)` with the default arguments of
`Cardlist.__init__`. -/
def baseCardlist : Cardlist :=
  { _conditions := [Cond.rawBase]
    _ORDER_BY := { key := OrderKey.recentTouched, desc := true }
    deck := "cards"
    filters := Option.none }

/-- Embedding of `Cardlist._copy` (cardlist.py 28-34): a new view with a
copy of the conditions list and the same ORDER BY; deck and filters are
not passed on, so `__init__` resets them to "cards" and empty. -/
def Cardlist._copy (cl : Cardlist) : Cardlist :=
  { _conditions := cl._conditions
    _ORDER_BY := cl._ORDER_BY
    deck := "cards"
    filters := Option.none }

/-- The result of `filter`/`sort`: a usage-guidance string, a new view,
or a raised exception. -/
inductive FilterResult where
  | guidance : String → FilterResult
  | view : Cardlist → FilterResult
  | err : PyError → FilterResult
deriving DecidableEq

/-- The usage text `filter` returns when no predicate was supplied
(cardlist.py 158-164). -/
def filterUsage : String :=
  "Examples:\nfilter --due                    ` due cards\nfilter --due-before -7            overdue by more than a week\nfilter --contains-images          cards containing images\nfilter --tag TAG --invert         cards not containing TAG\n\nRead `filter --help` for a complete list of predicates"

/-- The usage text `sort` returns for an unrecognized criterion
(cardlist.py 181-182). -/
def sortUsage : String :=
  "supply a criterion: overdue | old | random | time | total time | recent"

/-- Python str() of a parameter as the condition f-strings interpolate
it. -/
def pyStr : PyVal → String
  | PyVal.pystr s => s
  | PyVal.pybool b => if b then "True" else "False"
  | PyVal.pyint n => toString n
  | PyVal.none => "None"
  | PyVal.pylistS l => toString l

/-- The integer payload of a cleaned date parameter (cleaned non-empty
date parameters are always ints). -/
def pyIntOf : PyVal → Int
  | PyVal.pyint n => n
  | _ => 0

/-- `(tags or [])` as a string list.  A bare string would be iterated
character-wise by Python's join; other truthy non-iterables are not
produced by the boundary and no claim touches them. -/
def pyListOf : PyVal → List String
  | PyVal.pylistS l => l
  | PyVal.pystr s => s.toList.map (fun ch => String.mk [ch])
  | _ => []

/-- ASCII digit test matching the regex class `[0-9]`. -/
def isDig (c : Char) : Bool :=
  '0' ≤ c && c ≤ '9'

/-- `fullmatch('[0-9]{4}-[0-9]{2}-[0-9]{2}', value)` (cardlist.py 122). -/
def isoMatch (s : String) : Bool :=
  match s.toList with
  | [y1, y2, y3, y4, h1, m1, m2, h2, d1, d2] =>
    isDig y1 && isDig y2 && isDig y3 && isDig y4 && h1 == '-' &&
    isDig m1 && isDig m2 && h2 == '-' && isDig d1 && isDig d2
  | _ => false

def digitVal (c : Char) : Int :=
  Int.ofNat (c.toNat - 48)

def digits2 (a b : Char) : Int :=
  digitVal a * 10 + digitVal b

def digits4 (a b c d : Char) : Int :=
  digitVal a * 1000 + digitVal b * 100 + digitVal c * 10 + digitVal d

/-- Proleptic Gregorian leap year. -/
def isLeap (y : Int) : Bool :=
  (y % 4 == 0 && !(y % 100 == 0)) || y % 400 == 0

def daysInMonth (y m : Int) : Int :=
  if m = 2 then (if isLeap y then 29 else 28)
  else if m = 4 ∨ m = 6 ∨ m = 9 ∨ m = 11 then 30
  else 31

/-- Modelled from Python's datetime (an external library): a date
`datetime.date.fromisoformat` accepts — a valid proleptic Gregorian
date with year 1..9999. -/
def validDate (y m d : Int) : Bool :=
  decide (1 ≤ y) && decide (y ≤ 9999) && decide (1 ≤ m) && decide (m ≤ 12) &&
  decide (1 ≤ d) && decide (d ≤ daysInMonth y m)

/-- Modelled from Python's datetime date arithmetic: the number of days
from 1970-01-01 to y-m-d in the proleptic Gregorian calendar (the value
of `(date - epoch_date).days` in cardlist.py 124-126). -/
def daysFromCivil (y m d : Int) : Int :=
  let y2 := if m ≤ 2 then y - 1 else y
  let era := Int.fdiv y2 400
  let yoe := y2 - era * 400
  let mp := (m + 9) % 12
  let doy := Int.fdiv (153 * mp + 2) 5 + d - 1
  let doe := yoe * 365 + Int.fdiv yoe 4 - Int.fdiv yoe 100 + doy
  era * 146097 + doe - 719468

/-- Parse the ten characters of an ISO date and compute its
days-since-epoch value; `none` when the date is invalid (the ValueError
`fromisoformat` raises). -/
def parseIsoDays (s : String) : Option Int :=
  match s.toList with
  | [y1, y2, y3, y4, _, m1, m2, _, d1, d2] =>
    let y := digits4 y1 y2 y3 y4
    let m := digits2 m1 m2
    let d := digits2 d1 d2
    if validDate y m d then some (daysFromCivil y m d) else Option.none
  | _ => Option.none

/-- Cleaning of one date parameter (cardlist.py 116-129): None and ''
pass through; an int is a signed offset from today; an ISO string
becomes its days-since-epoch value; anything else raises ValueError. -/
def cleanDate (today : Int) (v : PyVal) : Except PyError PyVal :=
  match v with
  | PyVal.none => .ok PyVal.none
  | PyVal.pyint n => .ok (PyVal.pyint (today + n))
  | PyVal.pystr s =>
    if s = "" then .ok (PyVal.pystr "")
    else if isoMatch s then
      match parseIsoDays s with
      | some n => .ok (PyVal.pyint n)
      | Option.none => .error (.valueError "day is out of range for month")
    else .error (.valueError ("parameter received unparseable value of " ++ s))
  | other => .error (.valueError ("parameter received unparseable value of " ++ pyStr other))

/-- Clean the four date parameters, propagating the first ValueError in
the dict's iteration order. -/
def cleanedDates (today : Int) (a : FilterArgs) :
    Except PyError (PyVal × PyVal × PyVal × PyVal) :=
  match cleanDate today a.created_after, cleanDate today a.created_before,
        cleanDate today a.due_after, cleanDate today a.due_before with
  | .ok ca, .ok cb, .ok da, .ok db => .ok (ca, cb, da, db)
  | .error e, _, _, _ => .error e
  | _, .error e, _, _ => .error e
  | _, _, .error e, _ => .error e
  | _, _, _, .error e => .error e

/-- The `parameters_conditions` table (cardlist.py 134-154), in source
order, with the cleaned date values in place of the raw ones. -/
def condTable (a : FilterArgs) (now : Rat) (ca cb da db : PyVal) :
    List (PyVal × Cond) :=
  [ (a.search, Cond.search (pyStr a.search)),
    (a.tag, Cond.tagEq (pyStr a.tag)),
    (a.tags_yes, Cond.tagsYes (pyListOf a.tags_yes)),
    (a.tags_no, Cond.tagsNo (pyListOf a.tags_no)),
    (ca, Cond.createdAfter (pyIntOf ca)),
    (cb, Cond.createdBefore (pyIntOf cb)),
    (da, Cond.dueAfter (pyIntOf da)),
    (db, Cond.dueBefore (pyIntOf db)),
    (a.due, Cond.dueNow now),
    (a.deleted, Cond.deletedVis),
    (a.card_type, Cond.cardTypeEq (pyStr a.card_type)),
    (a.new, Cond.isNew),
    (a.images, Cond.hasImages),
    (a.audio, Cond.hasAudio) ]

/-- The condition-appending loop (cardlist.py 167-170): parameters that
are None, 'any' or '' are skipped; an appended condition is negated when
`invert` XOR (the parameter is False). -/
def condFold (invert : Bool) (table : List (PyVal × Cond)) (base : List Cond) :
    List Cond :=
  table.foldl (fun acc pc =>
    if pc.1 != PyVal.none && pc.1 != PyVal.pystr "any" && pc.1 != PyVal.pystr "" then
      acc ++ [if Bool.xor invert (pc.1 == PyVal.pybool false) then Cond.notC pc.2 else pc.2]
    else acc) base

/-- Embedding of `Cardlist.filter` (cardlist.py 92-171).  The first
component is the caller after the call: `self.filters.update(locals())`
mutates the caller's `filters` record before anything else.  The second
component is the returned value: the usage text when parameters are
required and none was supplied, the raised ValueError of an unparseable
date, or the new view built on `_copy` with the accumulated
conditions. -/
def Cardlist.filter (cl : Cardlist) (a : FilterArgs) (now : Rat) :
    Cardlist × FilterResult :=
  let selfAfter := { cl with filters := some a }
  match cleanedDates ⌊now⌋ a with
  | .error e => (selfAfter, FilterResult.err e)
  | .ok (ca, cb, da, db) =>
    let table := condTable a now ca cb da db
    if a.require_parameters && table.all (fun pc => pc.1 == PyVal.none) then
      (selfAfter, FilterResult.guidance filterUsage)
    else
      let base := Cardlist._copy cl
      (selfAfter,
       FilterResult.view { base with _conditions := condFold a.invert table base._conditions })

/-- `crit_dict` (cardlist.py 174-180). -/
def critDict : List (String × OrderKey) :=
  [ ("overdue", OrderKey.dueDate),
    ("old", OrderKey.createDate),
    ("random", OrderKey.random),
    ("time", OrderKey.timeSpent),
    ("total time", OrderKey.timeSpent),
    ("recent", OrderKey.recentTouched) ]

/-- Embedding of `Cardlist.sort` (cardlist.py 173-189): an unrecognized
(or absent) criterion returns the usage text; otherwise a `_copy` gets
the new ORDER BY, with `reverse` XOR-ed against the
descending-by-default criteria. -/
def Cardlist.sort (cl : Cardlist) (criterion : Option String) (reverse : Bool) :
    FilterResult :=
  match criterion with
  | Option.none => FilterResult.guidance sortUsage
  | some c =>
    match critDict.lookup c with
    | Option.none => FilterResult.guidance sortUsage
    | some k =>
      let base := Cardlist._copy cl
      let rev := Bool.xor reverse (c == "recent" || c == "time" || c == "total time")
      FilterResult.view { base with _ORDER_BY := { key := k, desc := rev } }

/-- The executed `_SELECT_IDS` query: ids of the rows satisfying the
conditions, in ORDER BY order. -/
def selectIds (rows : List CardState) (cl : Cardlist) : List Int :=
  (sortRows (rowLE cl._ORDER_BY) (rows.filter (matchesAll cl._conditions))).map
    (fun st => st.id)

/-- The argument of `Cardlist.__getitem__`: an int index, a slice (of
which only `arg.stop` is read), or anything else. -/
inductive SliceArg where
  | idx : Int → SliceArg
  | slice : Int → SliceArg
  | other : SliceArg
deriving DecidableEq

/-- `LIMIT 1 OFFSET idx - 1` then `fetchone()[0]`: SQLite clamps a
negative OFFSET to 0, and subscripting the absent row (`fetchone()`
returning None) raises TypeError. -/
def Cardlist.fetchAt (rows : List CardState) (cl : Cardlist) (idx : Int) :
    Except PyError Card :=
  match (selectIds rows cl).get? (idx - 1).toNat with
  | some cid => .ok { id := cid, _dict := [] }
  | Option.none => .error (.typeError "NoneType object is not subscriptable")

/-- Embedding of `Cardlist.__getitem__` (cardlist.py 66-77): 1-based
human indexing translated to a zero-based OFFSET. -/
def Cardlist.getItem (rows : List CardState) (cl : Cardlist) (arg : SliceArg) :
    Except PyError Card :=
  match arg with
  | SliceArg.idx i => Cardlist.fetchAt rows cl i
  | SliceArg.slice stop => Cardlist.fetchAt rows cl stop
  | SliceArg.other => .error (.valueError "bad index")

/-- Embedding of `Cardlist.__len__` (cardlist.py 82-84): the COUNT(*)
over the current condition set. -/
def Cardlist.length (rows : List CardState) (cl : Cardlist) : Nat :=
  (rows.filter (matchesAll cl._conditions)).length

/-- Python `date or float(julianday.now())`: a falsy date (None or 0.0)
falls back to now. -/
def pyOrFloat (date : Option Rat) (now : Rat) : Rat :=
  match date with
  | some x => if x = 0 then now else x
  | Option.none => now

/-- Embedding of `Cardlist._change_visibility` (cardlist.py 191-198):
one batched INSERT ... SELECT appends a visibility edit for every row
satisfying the view's conditions whose visibility differs from the
target, and returns the new edit log with the affected-row count. -/
def Cardlist._change_visibility (rows : List CardState) (cl : Cardlist)
    (visibility : String) (date : Option Rat) (now : Rat)
    (edits : List EditRecord) : Except PyError (List EditRecord × Nat) :=
  if visibility ∉ ["visible", "deleted", "purged"] then
    .error (.assertionError "bad visibility")
  else
    let d := pyOrFloat date now
    let inserted :=
      (rows.filter (fun st =>
        matchesAll cl._conditions st && !(st.visibility == visibility))).map
        (fun st => mkVisibilityEdit st.id visibility d)
    .ok (edits ++ inserted, inserted.length)

/-- Sample rows of the `cards` view used by concrete witnesses. -/
def rowA : CardState :=
  { id := 1, front_text := "hello", back_text := "world", create_date := 90,
    due_date := 100, last_edit_date := 95, last_review_date := 96,
    edit_seconds := 10, review_seconds := 20, visibility := "visible",
    card_type := "basic", front_image_id := Option.none, back_image_id := Option.none,
    front_audio_id := Option.none, back_audio_id := Option.none, tags := [] }

def rowB : CardState :=
  { rowA with id := 2, create_date := 80, due_date := 80, last_edit_date := 99 }

/-! ## Helper lemmas -/

theorem mem_le_maxMediaId {r : Nat × String} :
    ∀ {l : List (Nat × String)}, r ∈ l → r.1 ≤ maxMediaId l := by
  intro l
  induction l with
  | nil => intro h; cases h
  | cons x t ih =>
    intro h
    rcases List.mem_cons.mp h with rfl | ht
    · exact le_max_left _ _
    · exact le_trans (ih ht) (le_max_right _ _)

theorem maxMediaId_append (l : List (Nat × String)) (x : Nat × String) :
    maxMediaId (l ++ [x]) = max (maxMediaId l) x.1 := by
  induction l with
  | nil => simp [maxMediaId]
  | cons y t ih => simp [maxMediaId, ih, Nat.max_assoc]

theorem countP_snd_eq_one {c : String} :
    ∀ {l : List (Nat × String)}, (l.map Prod.snd).Nodup →
      ∀ {r : Nat × String}, r ∈ l → r.2 = c →
      l.countP (fun x => x.2 == c) = 1 := by
  intro l
  induction l with
  | nil => intro _ r hr; cases hr
  | cons x t ih =>
    intro hnd r hr hc
    have hx : x.2 ∉ t.map Prod.snd := (List.nodup_cons.mp hnd).1
    have hnd' : (t.map Prod.snd).Nodup := (List.nodup_cons.mp hnd).2
    rcases List.mem_cons.mp hr with rfl | ht
    · have ht0 : t.countP (fun y => y.2 == c) = 0 := by
        rw [List.countP_eq_zero]
        intro a ha hac
        have hac' : a.2 = c := by simpa using hac
        apply hx
        rw [hc, ← hac']
        exact List.mem_map_of_mem Prod.snd ha
      rw [List.countP_cons, ht0]
      simp [hc]
    · have hcmem : c ∈ t.map Prod.snd := hc ▸ List.mem_map_of_mem Prod.snd ht
      have hxc : ¬ x.2 = c := fun he => hx (he ▸ hcmem)
      rw [List.countP_cons, ih hnd' ht hc]
      simp [hxc]

/-! ## Claim theorems -/

/-- Claim C3: uploading the same content to the media store twice
returns the same id both times and leaves the store with exactly one row
holding that content; uploading two distinct contents returns distinct
ids. -/
theorem upload_media_dedup (media : List (Nat × String)) (h : wfMedia media)
    (c d1 d2 : String) (hne : d1 ≠ d2) :
    (Card._upload_media (Card._upload_media media c).2 c).1
        = (Card._upload_media media c).1
    ∧ (Card._upload_media (Card._upload_media media c).2 c).2
        = (Card._upload_media media c).2
    ∧ ((Card._upload_media media c).2.countP (fun r => r.2 == c)) = 1
    ∧ (Card._upload_media (Card._upload_media media d1).2 d2).1
        ≠ (Card._upload_media media d1).1 := by
  obtain ⟨hid, hcontent⟩ := h
  refine ⟨?_, ?_, ?_, ?_⟩
  all_goals simp only [Card._upload_media]
  · cases hf : media.find? (fun r => r.2 == c) with
    | some r => simp [hf]
    | none =>
      have hf2 : (media ++ [(maxMediaId media + 1, c)]).find? (fun r => r.2 == c)
          = some (maxMediaId media + 1, c) := by
        rw [List.find?_append, hf]
        simp
      simp [hf, hf2]
  · cases hf : media.find? (fun r => r.2 == c) with
    | some r => simp [hf]
    | none =>
      have hf2 : (media ++ [(maxMediaId media + 1, c)]).find? (fun r => r.2 == c)
          = some (maxMediaId media + 1, c) := by
        rw [List.find?_append, hf]
        simp
      simp [hf, hf2]
  · cases hf : media.find? (fun r => r.2 == c) with
    | some r =>
      simp only [hf]
      exact countP_snd_eq_one hcontent (List.mem_of_find?_eq_some hf)
        (by have := List.find?_some hf; simpa using this)
    | none =>
      have h0 : media.countP (fun r => r.2 == c) = 0 := by
        rw [List.countP_eq_zero]
        exact List.find?_eq_none.mp hf
      simp [hf, List.countP_append, h0, List.countP_cons]
  · cases hf1 : media.find? (fun r => r.2 == d1) with
    | some r1 =>
      have hr1mem := List.mem_of_find?_eq_some hf1
      have hr1c : r1.2 = d1 := by have := List.find?_some hf1; simpa using this
      cases hf2 : media.find? (fun r => r.2 == d2) with
      | some r2 =>
        have hr2mem := List.mem_of_find?_eq_some hf2
        have hr2c : r2.2 = d2 := by have := List.find?_some hf2; simpa using this
        simp only [hf1, hf2]
        intro hids
        apply hne
        have hr12 : r2 = r1 := List.inj_on_of_nodup_map hid hr2mem hr1mem hids
        rw [← hr1c, ← hr2c, hr12]
      | none =>
        have hle : r1.1 ≤ maxMediaId media := mem_le_maxMediaId hr1mem
        simp only [hf1, hf2]
        omega
    | none =>
      cases hf2 : (media ++ [(maxMediaId media + 1, d1)]).find? (fun r => r.2 == d2) with
      | some r2 =>
        have hr2mem := List.mem_of_find?_eq_some hf2
        have hr2c : r2.2 = d2 := by have := List.find?_some hf2; simpa using this
        simp only [hf1, hf2]
        rcases List.mem_append.mp hr2mem with hm | hm
        · have hle : r2.1 ≤ maxMediaId media := mem_le_maxMediaId hm
          omega
        · exfalso
          apply hne
          have hmr : r2 = (maxMediaId media + 1, d1) := by simpa using hm
          have h2 : r2.2 = d1 := by rw [hmr]
          rw [← h2, hr2c]
      | none =>
        simp only [hf1, hf2, maxMediaId_append]
        omega

/-- Claim C3 witness: a concrete run of the dedup properties. -/
theorem upload_media_dedup_witness :
    (Card._upload_media (Card._upload_media [(1, "a")] "a").2 "a").1
        = (Card._upload_media [(1, "a")] "a").1
    ∧ (Card._upload_media (Card._upload_media [(1, "a")] "a").2 "a").2
        = (Card._upload_media [(1, "a")] "a").2
    ∧ ((Card._upload_media [(1, "a")] "a").2.countP (fun r => r.2 == "a")) = 1
    ∧ (Card._upload_media (Card._upload_media [(1, "a")] "x").2 "y").1
        ≠ (Card._upload_media [(1, "a")] "x").1 :=
  upload_media_dedup [(1, "a")] ⟨by decide, by decide⟩ "a" "x" "y" (by decide)

theorem concrete_mem_fields {k : String} (hk : k ∈ _concrete_fields) : k ∈ _fields :=
  List.mem_append_left _ hk

theorem concrete_not_virtual :
    ∀ k ∈ _concrete_fields, k ∉ _virtual_media_fields := by decide

/-- Claim C1: for every card and every concrete attribute other than id,
`Card.__getitem__` returns the value carried by the most recent edit
event referencing that attribute and card id, or the defined default if
no such event exists (the `queryLatest` projection of the spec-modelled
`cards` view), provided the session cache is consistent for that key. -/
theorem getItem_returns_latest_edit (media : List (Nat × String))
    (edits : List EditRecord) (dflt : String → Value) (c : Card) (key : String)
    (hk : key ∈ _concrete_fields) (hid : key ≠ "id")
    (hcache : ∀ v, c._dict.lookup key = some v → v = queryLatest edits dflt c.id key) :
    Card.getItemValue media edits dflt c key
      = .ok (queryLatest edits dflt c.id key) := by
  have hf : key ∈ _fields := concrete_mem_fields hk
  have hnv : key ∉ _virtual_media_fields := concrete_not_virtual key hk
  unfold Card.getItemValue Card.getItem
  rw [if_neg (not_not_intro hf), if_neg hid]
  cases hl : c._dict.lookup key with
  | some v => simp [hcache v hl, Except.map]
  | none => simp [hnv, Except.map]

/-- Claim C1 witness: a concrete card with an empty cache reads the
value of the latest edit. -/
theorem getItem_returns_latest_edit_witness :
    Card.getItemValue []
        [{ card_id := 1, date := some 5, seconds := Option.none,
           fields := [("front_text", Value.vstr "hola")] }]
        (fun _ => Value.vnull) { id := 1, _dict := [] } "front_text"
      = .ok (queryLatest
          [{ card_id := 1, date := some 5, seconds := Option.none,
             fields := [("front_text", Value.vstr "hola")] }]
          (fun _ => Value.vnull) 1 "front_text") :=
  getItem_returns_latest_edit [] _ _ _ "front_text" (by decide) (by decide)
    (by intro v hv; simp [List.lookup] at hv)

/-- Claim C7 counterexample: an update whose dict is empty has every key
(vacuously) editable, yet writes zero edit events rather than one. -/
theorem update_empty_dict_writes_no_event :
    editableKeys [] = true
    ∧ (Card._update { id := 1, _dict := [] } [] Option.none 0 []).1 = []
    ∧ (Card._update { id := 1, _dict := [] } [] Option.none 0 []).2.2
        = Option.none := by
  refine ⟨rfl, rfl, rfl⟩

/-- Claim C7 (amended): `id` is not editable; an update dict containing
any non-editable key fails with the validation AssertionError and
writes no edit event; a nonempty all-editable dict is written as exactly
one edit event carrying all the given fields; an empty dict writes no
event. -/
theorem update_validation_and_single_event (c : Card) (d : List (String × Value))
    (date : Option Rat) (seconds : Int) (edits : List EditRecord) :
    "id" ∉ _editable_fields
    ∧ (editableKeys d = false →
        Card._update c d date seconds edits
          = (edits, c, some (PyError.assertionError "Bad Key")))
    ∧ (editableKeys d = true → d ≠ [] →
        (Card._update c d date seconds edits).1
            = edits ++ [{ card_id := c.id, date := pyTruthyDate date,
                          seconds := if seconds ≠ 0 then some seconds else Option.none,
                          fields := d }]
          ∧ (Card._update c d date seconds edits).2.2 = Option.none) := by
  refine ⟨by decide, ?_, ?_⟩
  · intro hbad
    unfold Card._update
    rw [if_pos (by simp [hbad])]
  · intro hgood hne
    unfold Card._update
    rw [if_neg (by simp [hgood]), if_neg hne]
    exact ⟨rfl, rfl⟩

/-- Claim C7 witness: the rejected id update and the accepted single
event at concrete inputs. -/
theorem update_validation_and_single_event_witness :
    Card._update { id := 3, _dict := [] } [("id", Value.vint 9)] Option.none 0 []
        = ([], { id := 3, _dict := [] }, some (PyError.assertionError "Bad Key"))
    ∧ (Card._update { id := 3, _dict := [] } [("due_date", Value.vrat 7)]
          Option.none 0 []).1
        = [] ++ [{ card_id := 3, date := pyTruthyDate Option.none,
                   seconds := if (0:Int) ≠ 0 then some 0 else Option.none,
                   fields := [("due_date", Value.vrat 7)] }] :=
  ⟨(update_validation_and_single_event { id := 3, _dict := [] }
      [("id", Value.vint 9)] Option.none 0 []).2.1 (by decide),
   ((update_validation_and_single_event { id := 3, _dict := [] }
      [("due_date", Value.vrat 7)] Option.none 0 []).2.2 (by decide) (by decide)).1⟩

/-- Claim C4 counterexample: the single-card `Card._change_visibility`
inserts one edit event even when the card's current visibility already
equals the target state. -/
theorem card_change_visibility_always_inserts :
    queryLatest [mkVisibilityEdit 1 "visible" 3] (fun _ => Value.vnull) 1 "visibility"
        = Value.vstr "visible"
    ∧ (Card._change_visibility { id := 1, _dict := [] } "visible" (some 5)
          [mkVisibilityEdit 1 "visible" 3]).1.length = 2 := by
  refine ⟨by decide, by decide⟩

/-- Claim C4 (amended): the bulk `Cardlist._change_visibility` skips
no-op writes: a card matching the view whose visibility already equals
the target contributes no event, so when every matching card is already
in the target state the edit stream is unchanged and the affected-row
count is zero.  (The single-card `Card._change_visibility` does not
skip; see the counterexample.) -/
theorem bulk_change_visibility_skips_noop (rows : List CardState) (cl : Cardlist)
    (s : String) (date : Option Rat) (now : Rat) (edits : List EditRecord)
    (hs : s ∈ ["visible", "deleted", "purged"])
    (hall : ∀ st ∈ rows, matchesAll cl._conditions st = true → st.visibility = s) :
    Cardlist._change_visibility rows cl s date now edits = .ok (edits, 0) := by
  unfold Cardlist._change_visibility
  rw [if_neg (not_not_intro hs)]
  have hnil : rows.filter
      (fun st => matchesAll cl._conditions st && !(st.visibility == s)) = [] := by
    rw [List.filter_eq_nil_iff]
    intro st hst
    simp only [Bool.and_eq_true, Bool.not_eq_true', beq_eq_false_iff_ne, ne_eq, not_and]
    intro hm hv
    exact hv (hall st hst hm)
  simp [hnil]

/-- Claim C4 witness: a view whose matching cards are all already
visible; restoring to visible appends nothing. -/
theorem bulk_change_visibility_skips_noop_witness :
    Cardlist._change_visibility [rowA] baseCardlist "visible" Option.none 50
        [mkVisibilityEdit 1 "visible" 3]
      = .ok ([mkVisibilityEdit 1 "visible" 3], 0) :=
  bulk_change_visibility_skips_noop [rowA] baseCardlist "visible" Option.none 50
    [mkVisibilityEdit 1 "visible" 3] (by decide) (by decide)

theorem condFold_append (invert : Bool) :
    ∀ (table : List (PyVal × Cond)) (base : List Cond),
      condFold invert table base = base ++ condFold invert table [] := by
  intro table
  induction table with
  | nil => intro base; simp [condFold]
  | cons pc t ih =>
    intro base
    simp only [condFold, List.foldl_cons] at *
    by_cases h : (pc.1 != PyVal.none && pc.1 != PyVal.pystr "any"
        && pc.1 != PyVal.pystr "") = true
    · rw [if_pos h, if_pos h, ih, List.nil_append,
        ih ([if Bool.xor invert (pc.1 == PyVal.pybool false) then Cond.notC pc.2 else pc.2]),
        List.append_assoc]
    · rw [if_neg h, if_neg h, ih]

theorem filter_fst (cl : Cardlist) (a : FilterArgs) (now : Rat) :
    (cl.filter a now).1 = { cl with filters := some a } := by
  unfold Cardlist.filter
  cases cleanedDates ⌊now⌋ a with
  | error e => rfl
  | ok q =>
    obtain ⟨ca, cb, da, db⟩ := q
    dsimp only
    by_cases h : (a.require_parameters
        && (condTable a now ca cb da db).all (fun pc => pc.1 == PyVal.none)) = true
    · rw [if_pos h]
    · rw [if_neg h]

theorem filter_view_spec (cl : Cardlist) (a : FilterArgs) (now : Rat) (v : Cardlist)
    (h : (cl.filter a now).2 = FilterResult.view v) :
    (∃ ca cb da db, cleanedDates ⌊now⌋ a = .ok (ca, cb, da, db)
        ∧ v._conditions
            = cl._conditions ++ condFold a.invert (condTable a now ca cb da db) [])
    ∧ v._ORDER_BY = cl._ORDER_BY ∧ v.deck = "cards" ∧ v.filters = Option.none := by
  unfold Cardlist.filter at h
  cases hcd : cleanedDates ⌊now⌋ a with
  | error e => rw [hcd] at h; simp at h
  | ok q =>
    obtain ⟨ca, cb, da, db⟩ := q
    rw [hcd] at h
    dsimp only at h
    by_cases hreq : (a.require_parameters
        && (condTable a now ca cb da db).all (fun pc => pc.1 == PyVal.none)) = true
    · rw [if_pos hreq] at h
      simp at h
    · rw [if_neg hreq] at h
      simp only [FilterResult.view.injEq] at h
      subst h
      exact ⟨⟨ca, cb, da, db, rfl, condFold_append a.invert _ _⟩, rfl, rfl, rfl⟩

/-- Claim C5: indexing a view is 1-based — index i fetches the (i-1)-th
entry of the executed id query (first in sort order at index 1, last at
index N) — and requesting index N+1 fails with the out-of-range error
(the TypeError of subscripting the absent row), never a silent None. -/
theorem getitem_one_based_pagination (rows : List CardState) (cl : Cardlist)
    (i : Nat) (cid : Int) :
    (1 ≤ i → (selectIds rows cl).get? (i - 1) = some cid →
      Cardlist.getItem rows cl (SliceArg.idx (i : Int))
        = .ok { id := cid, _dict := [] })
    ∧ Cardlist.getItem rows cl
          (SliceArg.idx (((selectIds rows cl).length + 1 : Nat) : Int))
        = .error (PyError.typeError "NoneType object is not subscriptable") := by
  constructor
  · intro h1 hget
    have hoff : ((i : Int) - 1).toNat = i - 1 := by omega
    simp only [Cardlist.getItem, Cardlist.fetchAt, hoff, hget]
  · have hoff : ((((selectIds rows cl).length + 1 : Nat) : Int) - 1).toNat
        = (selectIds rows cl).length := by omega
    simp only [Cardlist.getItem, Cardlist.fetchAt, hoff,
      List.get?_len_le (le_refl (selectIds rows cl).length)]

/-- Claim C5 witness: two rows sorted by the default recency order;
index 1 is the most recent card, index 3 is out of range. -/
theorem getitem_one_based_pagination_witness :
    Cardlist.getItem [rowA, rowB] baseCardlist (SliceArg.idx ((1 : Nat) : Int))
        = .ok { id := 2, _dict := [] }
    ∧ Cardlist.getItem [rowA, rowB] baseCardlist
          (SliceArg.idx (((selectIds [rowA, rowB] baseCardlist).length + 1 : Nat) : Int))
        = .error (PyError.typeError "NoneType object is not subscriptable") :=
  ⟨(getitem_one_based_pagination [rowA, rowB] baseCardlist 1 2).1
      (by decide) (by decide),
   (getitem_one_based_pagination [rowA, rowB] baseCardlist 1 2).2⟩

/-- Claim C6: a filter call supplying no predicate parameter while
parameters are required returns the usage-guidance text (not an error,
not a view), and a sort call whose criterion is not in the fixed
criterion table returns the sort usage text. -/
theorem filter_sort_usage_guidance (cl : Cardlist) (a : FilterArgs) (now : Rat)
    (crit : Option String) (rev : Bool)
    (hs : a.search = PyVal.none) (ht : a.tag = PyVal.none)
    (hty : a.tags_yes = PyVal.none) (htn : a.tags_no = PyVal.none)
    (hca : a.created_after = PyVal.none) (hcb : a.created_before = PyVal.none)
    (hda : a.due_after = PyVal.none) (hdb : a.due_before = PyVal.none)
    (hdel : a.deleted = PyVal.none) (hdue : a.due = PyVal.none)
    (hnew : a.new = PyVal.none) (hct : a.card_type = PyVal.none)
    (him : a.images = PyVal.none) (hau : a.audio = PyVal.none)
    (hreq : a.require_parameters = true)
    (hcrit : crit.bind (fun c => critDict.lookup c) = Option.none) :
    (cl.filter a now).2 = FilterResult.guidance filterUsage
    ∧ cl.sort crit rev = FilterResult.guidance sortUsage := by
  constructor
  · have hcd : cleanedDates ⌊now⌋ a
        = .ok (PyVal.none, PyVal.none, PyVal.none, PyVal.none) := by
      unfold cleanedDates
      rw [hca, hcb, hda, hdb]
      rfl
    unfold Cardlist.filter
    rw [hcd]
    dsimp only
    rw [if_pos]
    rw [hreq]
    simp only [condTable, hs, ht, hty, htn, hdel, hdue, hnew, hct, him, hau]
    rfl
  · cases crit with
    | none => rfl
    | some c =>
      dsimp only [Option.bind] at hcrit
      unfold Cardlist.sort
      dsimp only
      rw [hcrit]

/-- Claim C6 witness: the all-defaults filter call and an unknown sort
criterion at concrete inputs. -/
theorem filter_sort_usage_guidance_witness :
    (baseCardlist.filter {} 100).2 = FilterResult.guidance filterUsage
    ∧ baseCardlist.sort (some "alphabetical") false
        = FilterResult.guidance sortUsage :=
  filter_sort_usage_guidance baseCardlist {} 100 (some "alphabetical") false
    rfl rfl rfl rfl rfl rfl rfl rfl rfl rfl rfl rfl rfl rfl rfl (by decide)

/-- Claim C10: every view returned by `filter` or `sort` has its deck
reset to the base "cards" collection — `_copy` does not carry the deck
scope forward — so subsequent queries on the result run against the full
collection plus the accumulated conditions. -/
theorem filter_sort_reset_deck (cl : Cardlist) (a : FilterArgs) (now : Rat)
    (v w : Cardlist) (crit : Option String) (rev : Bool)
    (hf : (cl.filter a now).2 = FilterResult.view v)
    (hs : cl.sort crit rev = FilterResult.view w) :
    v.deck = "cards" ∧ w.deck = "cards" := by
  obtain ⟨_, _, hdeck, _⟩ := filter_view_spec cl a now v hf
  refine ⟨hdeck, ?_⟩
  unfold Cardlist.sort at hs
  cases crit with
  | none => simp at hs
  | some c =>
    dsimp only at hs
    cases hl : critDict.lookup c with
    | none => rw [hl] at hs; simp at hs
    | some k =>
      rw [hl] at hs
      dsimp only at hs
      simp only [FilterResult.view.injEq] at hs
      subst hs
      rfl

/-- Claim C10 witness: filtering and sorting a named-deck view both
return views scoped to "cards". -/
theorem filter_sort_reset_deck_witness :
    ({ _conditions := [Cond.rawBase, Cond.dueNow 100],
       _ORDER_BY := { key := OrderKey.recentTouched, desc := true },
       deck := "cards", filters := Option.none } : Cardlist).deck = "cards"
    ∧ ({ _conditions := [Cond.rawBase],
         _ORDER_BY := { key := OrderKey.dueDate, desc := false },
         deck := "cards", filters := Option.none } : Cardlist).deck = "cards" :=
  filter_sort_reset_deck { baseCardlist with deck := "spanish" }
    { due := PyVal.pybool true } 100 _ _ (some "overdue") false
    (by decide) (by decide)

/-- Claim C2 counterexample: a filter call does mutate the caller's
existing view — `self.filters.update(locals())` changes the caller's
`filters` record in place, so the caller is not left untouched. -/
theorem filter_mutates_filters_record :
    (baseCardlist.filter { due := PyVal.pybool true } 100).1 ≠ baseCardlist := by
  rw [filter_fst]
  decide

/-- Claim C2 (amended): filter composition commutes on the resulting
set — `filter(A).filter(B)` and `filter(B).filter(A)` match exactly the
same cards — and a filter call leaves the caller's condition list,
ordering and deck untouched (copy-on-write for the query state; only the
caller's auxiliary `filters` parameter record is updated in place). -/
theorem filter_commutes_and_preserves_conditions
    (cl vA vAB vB vBA : Cardlist) (a b : FilterArgs) (now : Rat) (st : CardState)
    (hA : (cl.filter a now).2 = FilterResult.view vA)
    (hAB : (vA.filter b now).2 = FilterResult.view vAB)
    (hB : (cl.filter b now).2 = FilterResult.view vB)
    (hBA : (vB.filter a now).2 = FilterResult.view vBA) :
    matchesAll vAB._conditions st = matchesAll vBA._conditions st
    ∧ (cl.filter a now).1._conditions = cl._conditions
    ∧ (cl.filter a now).1._ORDER_BY = cl._ORDER_BY
    ∧ (cl.filter a now).1.deck = cl.deck := by
  obtain ⟨⟨ca1, cb1, da1, db1, hc1, hv1⟩, -, -, -⟩ := filter_view_spec cl a now vA hA
  obtain ⟨⟨ca2, cb2, da2, db2, hc2, hv2⟩, -, -, -⟩ := filter_view_spec vA b now vAB hAB
  obtain ⟨⟨ca3, cb3, da3, db3, hc3, hv3⟩, -, -, -⟩ := filter_view_spec cl b now vB hB
  obtain ⟨⟨ca4, cb4, da4, db4, hc4, hv4⟩, -, -, -⟩ := filter_view_spec vB a now vBA hBA
  rw [hc1] at hc4
  simp only [Except.ok.injEq, Prod.mk.injEq] at hc4
  obtain ⟨rfl, rfl, rfl, rfl⟩ := hc4
  rw [hc2] at hc3
  simp only [Except.ok.injEq, Prod.mk.injEq] at hc3
  obtain ⟨rfl, rfl, rfl, rfl⟩ := hc3
  refine ⟨?_, ?_, ?_, ?_⟩
  · rw [hv2, hv1, hv4, hv3]
    simp [matchesAll, List.all_append, Bool.and_assoc, Bool.and_comm,
      Bool.and_left_comm]
  · rw [filter_fst]
  · rw [filter_fst]
  · rw [filter_fst]

/-- Claim C2 witness: two concrete filters applied in both orders match
the same card, and the caller's query state is preserved. -/
theorem filter_commutes_and_preserves_conditions_witness :
    matchesAll [Cond.rawBase, Cond.dueNow 100, Cond.deletedVis] rowA
        = matchesAll [Cond.rawBase, Cond.deletedVis, Cond.dueNow 100] rowA
    ∧ (baseCardlist.filter { due := PyVal.pybool true } 100).1._conditions
        = baseCardlist._conditions
    ∧ (baseCardlist.filter { due := PyVal.pybool true } 100).1._ORDER_BY
        = baseCardlist._ORDER_BY
    ∧ (baseCardlist.filter { due := PyVal.pybool true } 100).1.deck
        = baseCardlist.deck :=
  filter_commutes_and_preserves_conditions baseCardlist
    { _conditions := [Cond.rawBase, Cond.dueNow 100],
      _ORDER_BY := { key := OrderKey.recentTouched, desc := true },
      deck := "cards", filters := Option.none }
    { _conditions := [Cond.rawBase, Cond.dueNow 100, Cond.deletedVis],
      _ORDER_BY := { key := OrderKey.recentTouched, desc := true },
      deck := "cards", filters := Option.none }
    { _conditions := [Cond.rawBase, Cond.deletedVis],
      _ORDER_BY := { key := OrderKey.recentTouched, desc := true },
      deck := "cards", filters := Option.none }
    { _conditions := [Cond.rawBase, Cond.deletedVis, Cond.dueNow 100],
      _ORDER_BY := { key := OrderKey.recentTouched, desc := true },
      deck := "cards", filters := Option.none }
    { due := PyVal.pybool true } { deleted := PyVal.pybool true } 100 rowA
    (by decide) (by decide) (by decide) (by decide)

/-- Claim C8 counterexample: the due filter is strict — a card whose
current due_date equals NOW exactly is not matched by filter(due=True),
although due_date ≤ now holds and `Card.is_due` is true for it. -/
theorem due_filter_strict_at_now :
    (baseCardlist.filter { due := PyVal.pybool true } 100).2
        = FilterResult.view
            { _conditions := [Cond.rawBase, Cond.dueNow 100],
              _ORDER_BY := { key := OrderKey.recentTouched, desc := true },
              deck := "cards", filters := Option.none }
    ∧ matchesAll [Cond.rawBase, Cond.dueNow 100] rowA = false
    ∧ rowA.due_date ≤ 100
    ∧ Card.is_due rowA.due_date 100 = true := by decide

/-- Claim C8 (amended): filter(due=True) matches exactly the cards whose
current due_date is strictly less than now (the generated condition is
`due_date < NOW`), while the single-card convenience `Card.is_due` is
true iff due_date ≤ today; the two disagree on cards due in the interval
(today, now]. -/
theorem due_filter_strict_and_is_due (cl : Cardlist) (now : Rat) (v : Cardlist)
    (st : CardState) (dd t : Rat)
    (h : (cl.filter { due := PyVal.pybool true } now).2 = FilterResult.view v) :
    matchesAll v._conditions st
        = (matchesAll cl._conditions st && decide (st.due_date < now))
    ∧ Card.is_due dd t = decide (dd ≤ t) := by
  obtain ⟨⟨ca, cb, da, db, hc, hv⟩, -, -, -⟩ := filter_view_spec cl _ now v h
  have hcd : cleanedDates ⌊now⌋ ({ due := PyVal.pybool true } : FilterArgs)
      = .ok (PyVal.none, PyVal.none, PyVal.none, PyVal.none) := rfl
  rw [hcd] at hc
  simp only [Except.ok.injEq, Prod.mk.injEq] at hc
  obtain ⟨rfl, rfl, rfl, rfl⟩ := hc
  have hv' : v._conditions = cl._conditions ++ [Cond.dueNow now] := by
    rw [hv]
    rfl
  rw [hv']
  constructor
  · simp [matchesAll, List.all_append, evalCond]
  · rfl

/-- Claim C8 witness: a card due strictly before now is matched by the
due filter, and `is_due` evaluates as due_date ≤ today. -/
theorem due_filter_strict_and_is_due_witness :
    matchesAll [Cond.rawBase, Cond.dueNow 100] rowB
        = (matchesAll baseCardlist._conditions rowB && decide (rowB.due_date < 100))
    ∧ Card.is_due 80 100 = decide ((80 : Rat) ≤ 100) :=
  due_filter_strict_and_is_due baseCardlist 100
    { _conditions := [Cond.rawBase, Cond.dueNow 100],
      _ORDER_BY := { key := OrderKey.recentTouched, desc := true },
      deck := "cards", filters := Option.none }
    rowB 80 100 (by decide)

/-- Claim C9: a signed integer offset d supplied to a date-valued filter
parameter is translated to the absolute day today + d before comparing;
filter(due_before=-7) with NOW fixed at day 100 matches exactly the
cards with due_date < 93 on top of the caller's conditions; and an ISO
YYYY-MM-DD string is translated to its days-since-epoch value. -/
theorem date_offset_translation (d today : Int) (cl : Cardlist) (v : Cardlist)
    (st : CardState) (s : String) (n : Int) :
    cleanDate today (PyVal.pyint d) = .ok (PyVal.pyint (today + d))
    ∧ ((cl.filter { due_before := PyVal.pyint (-7) } 100).2 = FilterResult.view v →
        matchesAll v._conditions st
          = (matchesAll cl._conditions st && decide (st.due_date < (93 : Rat))))
    ∧ (isoMatch s = true → parseIsoDays s = some n →
        cleanDate today (PyVal.pystr s) = .ok (PyVal.pyint n)) := by
  refine ⟨rfl, ?_, ?_⟩
  · intro h
    obtain ⟨⟨ca, cb, da, db, hc, hv⟩, -, -, -⟩ := filter_view_spec cl _ 100 v h
    have h100 : (⌊(100 : Rat)⌋ : Int) = 100 := by norm_num
    rw [h100] at hc
    have hcd : cleanedDates 100 ({ due_before := PyVal.pyint (-7) } : FilterArgs)
        = .ok (PyVal.none, PyVal.none, PyVal.none, PyVal.pyint 93) := rfl
    rw [hcd] at hc
    simp only [Except.ok.injEq, Prod.mk.injEq] at hc
    obtain ⟨rfl, rfl, rfl, rfl⟩ := hc
    have hv' : v._conditions = cl._conditions ++ [Cond.dueBefore 93] := by
      rw [hv]
      rfl
    rw [hv']
    simp [matchesAll, List.all_append, evalCond]
  · intro hm hp
    have hsne : ¬ s = "" := by
      intro he
      rw [he] at hm
      exact absurd hm (by decide)
    unfold cleanDate
    dsimp only
    rw [if_neg hsne, if_pos hm, hp]

/-- Claim C9 witness: the -7 offset at TODAY = 100 gives 93, a card due
at day 80 matches due_before = -7, and 1999-06-14 becomes 10756 days
since the epoch. -/
theorem date_offset_translation_witness :
    cleanDate 100 (PyVal.pyint (-7)) = .ok (PyVal.pyint (100 + (-7)))
    ∧ matchesAll [Cond.rawBase, Cond.dueBefore 93] rowB
        = (matchesAll baseCardlist._conditions rowB
            && decide (rowB.due_date < (93 : Rat)))
    ∧ cleanDate 100 (PyVal.pystr "1999-06-14") = .ok (PyVal.pyint 10756) := by
  have h := date_offset_translation (-7) 100 baseCardlist
    { _conditions := [Cond.rawBase, Cond.dueBefore 93],
      _ORDER_BY := { key := OrderKey.recentTouched, desc := true },
      deck := "cards", filters := Option.none }
    rowB "1999-06-14" 10756
  exact ⟨h.1, h.2.1 (by decide), h.2.2 (by decide) (by decide)⟩

end Vinca
